import Mathlib

/-!
Verification of the SSO handoff and session-relay gateway
(`worker/sso/jose.ts`, `worker/sso/db.ts`, `worker/sso/cookies.ts` and the
worker entry point with `handleVibeAccess` / `handleProtected` / `fetch`).

Modelling conventions:
* JS strings are modelled as `List Char`; byte arrays (`Uint8Array`) as
  `List Nat` with every byte `< 256`.
* The platform primitives `btoa`/`atob` are modelled as standard base64
  encoding/decoding; `base64UrlEncode`/`base64UrlDecode` are translated
  from the source on top of them.  A JS exception is an `Option`/`Except`
  failure.
* `JSON.stringify`/`JSON.parse` composed with `TextEncoder`/`TextDecoder`
  and the Web-Crypto HMAC/RSA primitives are platform code, not repository
  code; they are abstracted as codec parameters (`VibeCodec`, `FlexiCodec`)
  with the round-trip facts they enjoy stated as explicit hypotheses where
  a theorem needs them.
* The D1 database is modelled as an explicit state (`DB`) threaded through
  the handlers; the SQL statements in `db.ts` become pure operations on it.
-/

namespace SSO

/-- The base64 alphabet used by the platform `btoa`/`atob` primitives. -/
def ALPH : List Char :=
  ("ABCDEFGHIJKLMNOPQRSTUVWXYZabcdefghijklmnopqrstuvwxyz0123456789+/").toList

/-- Character of the base64 alphabet at index `n`. -/
def alph (n : Nat) : Char := ALPH.getD n 'A'

/-- Index of a character in the base64 alphabet. -/
def b64Idx (c : Char) : Nat := ALPH.indexOf c

/-- Membership in the base64 alphabet. -/
def isB64 (c : Char) : Bool := ALPH.contains c

/-- Platform `btoa`: encode bytes (all `< 256`) as base64 with `=` padding. -/
def btoa : List Nat → List Char
  | [] => []
  | [a] => [alph (a / 4), alph (a % 4 * 16), '=', '=']
  | [a, b] => [alph (a / 4), alph (a % 4 * 16 + b / 16), alph (b % 16 * 4), '=']
  | a :: b :: c :: rest =>
      alph (a / 4) :: alph (a % 4 * 16 + b / 16) :: alph (b % 16 * 4 + c / 64)
        :: alph (c % 64) :: btoa rest

/-- Platform `atob`: decode a padded base64 string; `none` models the
`InvalidCharacterError` exception thrown on malformed input. -/
def atob : List Char → Option (List Nat)
  | w :: x :: y :: z :: rest =>
      if z = '=' then
        if rest = [] then
          if y = '=' then
            if isB64 w && isB64 x then
              some [b64Idx w * 4 + b64Idx x / 16]
            else none
          else if isB64 w && isB64 x && isB64 y then
            some [b64Idx w * 4 + b64Idx x / 16, b64Idx x % 16 * 16 + b64Idx y / 4]
          else none
        else none
      else
        if isB64 w && isB64 x && isB64 y && isB64 z then
          (atob rest).map (fun bs =>
            (b64Idx w * 4 + b64Idx x / 16) :: (b64Idx x % 16 * 16 + b64Idx y / 4)
              :: (b64Idx y % 4 * 64 + b64Idx z) :: bs)
        else none
  | [] => some []
  | _ => none

/-- The URL-safe replacement step of `base64UrlEncode`
(`replace(/\+/g, "-").replace(/\//g, "_")`). -/
def toUrl (c : Char) : Char := if c = '+' then '-' else if c = '/' then '_' else c

/-- The inverse replacement step of `base64UrlDecode`
(dash restored to plus, underscore restored to slash). -/
def fromUrl (c : Char) : Char := if c = '-' then '+' else if c = '_' then '/' else c

/-- `base64UrlEncode` from `jose.ts`: `btoa`, URL-safe replacements, strip `=`. -/
def base64UrlEncode (bs : List Nat) : List Char :=
  ((btoa bs).map toUrl).filter (fun c => c != '=')

/-- The `padEnd(base64.length + ((4 - (base64.length % 4)) % 4), "=")` step of
`base64UrlDecode`. -/
def pad4 (s : List Char) : List Char :=
  s ++ List.replicate ((4 - s.length % 4) % 4) '='

/-- `base64UrlDecode` from `jose.ts`: URL-safe chars restored, padding re-added,
then `atob`. -/
def base64UrlDecode (s : List Char) : Option (List Nat) :=
  atob (pad4 (s.map fromUrl))

/-- Model of JS `String.prototype.split(".")`. -/
def splitOnDot : List Char → List (List Char)
  | [] => [[]]
  | c :: rest =>
      if c = '.' then [] :: splitOnDot rest
      else
        match splitOnDot rest with
        | [] => [[c]]
        | g :: gs => (c :: g) :: gs

/-! ## Data model (`worker/sso/types.ts`)

The TS interfaces declare e.g. `exp: number`, but the values come from an
unvalidated `JSON.parse` cast, so at runtime any claim may be absent; the
code guards them with JS truthiness checks (`payload.exp && …`).  The model
therefore makes the temporal claims and `jti`/`kid` optional and models the
truthiness tests explicitly.  A missing and an empty-string `email` are both
falsy and are used identically, so both are modelled as `[]`. -/

/-- JS truthiness of an optional number (absent and `0` are falsy). -/
def truthyNum : Option Nat → Bool
  | none => false
  | some n => n != 0

/-- JS truthiness of an optional string (absent and `""` are falsy). -/
def truthyStr : Option (List Char) → Bool
  | none => false
  | some s => s != []

/-- Claims of the inbound Flexi assertion (`FlexiJWTPayload`). -/
structure FlexiJWTPayload where
  iss : List Char
  aud : List Char
  sub : List Char
  email : List Char
  exp : Option Nat
  nbf : Option Nat
  iat : Option Nat
  jti : Option (List Char)
deriving DecidableEq

/-- Claims of the local session token (`VibeAccessPayload`). -/
structure VibeAccessPayload where
  iss : List Char
  aud : List Char
  sub : List Char
  email : List Char
  roles : List Char
  exp : Nat
  iat : Nat
deriving DecidableEq

/-- The `Omit<VibeAccessPayload, "exp" | "iat">` argument of the signer. -/
structure VibeClaims where
  iss : List Char
  aud : List Char
  sub : List Char
  email : List Char
  roles : List Char
deriving DecidableEq

/-- A public key of the key set (`JWK`); only the fields the verifier
consults for selection are modelled, the key material is consumed opaquely
by the abstract RSA primitive. -/
structure JWK where
  kid : Option (List Char)
  n : List Char
  e : List Char
deriving DecidableEq

/-- The key set (`JWKS`). -/
structure JWKS where
  keys : List JWK
deriving DecidableEq

/-- Decoded JWT header fields read by `verifyFlexiJWT_RS256`. -/
structure FlexiHeader where
  alg : List Char
  kid : Option (List Char)
deriving DecidableEq

/-- Model of `TextEncoder.encode` on the ASCII strings it is applied to. -/
def strBytes (s : List Char) : List Nat := s.map Char.toNat

/-- Platform primitives used by the HS256 signer/verifier
(`JSON.stringify`/`JSON.parse` composed with UTF-8 coding, and the
Web-Crypto HMAC-SHA256).  They are not repository code, so they are
abstracted; the round-trip facts a theorem needs are explicit hypotheses. -/
structure VibeCodec where
  /-- bytes of `JSON.stringify({alg: "HS256", typ: "JWT"})`. -/
  headerEnc : List Nat
  /-- parse header bytes, returning the `alg` field. -/
  headerDec : List Nat → Option (List Char)
  payloadEnc : VibeAccessPayload → List Nat
  payloadDec : List Nat → Option VibeAccessPayload
  /-- HMAC-SHA256 bytes over (secret, message). -/
  hmac : List Char → List Char → List Nat

/-- Platform primitives used by the RS256 verifier: header/payload JSON
parsing and `importRSAKey` + `crypto.subtle.verify` fused into one
signature predicate over (key, signature bytes, message bytes). -/
structure FlexiCodec where
  headerDec : List Nat → Option FlexiHeader
  payloadDec : List Nat → Option FlexiJWTPayload
  rsaVerify : JWK → List Nat → List Nat → Bool

/-- Failures of `verifyVibeAccessHS256` (each `throw` in the source;
`decodeError`/`parseError` stand for the platform `atob`/`JSON.parse`
exceptions). -/
inductive VibeErr where
  | invalidFormat
  | decodeError
  | parseError
  | unsupportedAlg (alg : List Char)
  | invalidSignature
  | tokenExpired
deriving DecidableEq

/-- Failures of `verifyFlexiJWT_RS256` (each `throw` in the source). -/
inductive FlexiErr where
  | invalidFormat
  | decodeError
  | parseError
  | unsupportedAlg (alg : List Char)
  | invalidIssuer (iss : List Char)
  | invalidAudience (aud : List Char)
  | tokenExpired
  | tokenNotYetValid
  | missingEmail
  | noMatchingKey
  | invalidSignature
deriving DecidableEq

/-- `Error.message` of each `verifyVibeAccessHS256` failure. -/
def vibeErrMsg : VibeErr → List Char
  | .invalidFormat => ("Invalid JWT format").toList
  | .decodeError => ("atob decode error").toList
  | .parseError => ("JSON parse error").toList
  | .unsupportedAlg a => ("Unsupported algorithm: ").toList ++ a
  | .invalidSignature => ("Invalid signature").toList
  | .tokenExpired => ("Token expired").toList

/-- `Error.message` of each `verifyFlexiJWT_RS256` failure. -/
def flexiErrMsg : FlexiErr → List Char
  | .invalidFormat => ("Invalid JWT format").toList
  | .decodeError => ("atob decode error").toList
  | .parseError => ("JSON parse error").toList
  | .unsupportedAlg a => ("Unsupported algorithm: ").toList ++ a
  | .invalidIssuer i => ("Invalid issuer: ").toList ++ i
  | .invalidAudience a => ("Invalid audience: ").toList ++ a
  | .tokenExpired => ("Token expired").toList
  | .tokenNotYetValid => ("Token not yet valid").toList
  | .missingEmail => ("Missing email claim").toList
  | .noMatchingKey => ("No matching key found in JWKS").toList
  | .invalidSignature => ("Invalid signature").toList

/-! ## Session token issuer/verifier (`jose.ts`) -/

/-- `signVibeAccessHS256` from `jose.ts`: build the full payload with
`iat = now` and `exp = now + ttlSeconds`, base64url-encode header and
payload, HMAC-sign `headerB64.payloadB64`, append the encoded signature. -/
def signVibeAccessHS256 (V : VibeCodec) (p : VibeClaims) (secret : List Char)
    (ttlSeconds now : Nat) : List Char :=
  let fullPayload : VibeAccessPayload :=
    ⟨p.iss, p.aud, p.sub, p.email, p.roles, now + ttlSeconds, now⟩
  let headerB64 := base64UrlEncode V.headerEnc
  let payloadB64 := base64UrlEncode (V.payloadEnc fullPayload)
  let message := headerB64 ++ '.' :: payloadB64
  let signatureB64 := base64UrlEncode (V.hmac secret message)
  message ++ '.' :: signatureB64

/-- `verifyVibeAccessHS256` from `jose.ts`: split the three parts, decode
and check the header algorithm, recompute the HMAC over
`headerB64.payloadB64` and compare, decode the payload, reject if `exp`
has passed. -/
def verifyVibeAccessHS256 (V : VibeCodec) (token secret : List Char) (now : Nat) :
    Except VibeErr VibeAccessPayload :=
  match splitOnDot token with
  | [headerB64, payloadB64, signatureB64] =>
      match base64UrlDecode headerB64 with
      | none => .error .decodeError
      | some hb =>
          match V.headerDec hb with
          | none => .error .parseError
          | some alg =>
              if alg ≠ ("HS256").toList then .error (.unsupportedAlg alg)
              else
                match base64UrlDecode signatureB64 with
                | none => .error .decodeError
                | some sigBytes =>
                    if sigBytes ≠ V.hmac secret (headerB64 ++ '.' :: payloadB64) then
                      .error .invalidSignature
                    else
                      match base64UrlDecode payloadB64 with
                      | none => .error .decodeError
                      | some pb =>
                          match V.payloadDec pb with
                          | none => .error .parseError
                          | some payload =>
                              if payload.exp < now then .error .tokenExpired
                              else .ok payload
  | _ => .error .invalidFormat

/-! ## Key cache & verifier (`jose.ts`) -/

/-- Key selection of `verifyFlexiJWT_RS256` (`header.kid ?
jwks.keys.find((k) => k.kid === header.kid) : jwks.keys[0]`); the `kid`
hint is subject to JS truthiness. -/
def selectJWK (keys : List JWK) (kid : Option (List Char)) : Option JWK :=
  if truthyStr kid then keys.find? (fun k => k.kid == kid) else keys.head?

/-- `verifyFlexiJWT_RS256` from `jose.ts`.  The `jwks` parameter is the key
set `getFlexiJWKS` returns (cache behaviour is orthogonal to the verified
properties).  NOTE the source order: format, header algorithm, then the
claim checks (issuer, audience, expiry, not-before, email), and only then
key selection and signature verification. -/
def verifyFlexiJWT_RS256 (C : FlexiCodec) (token : List Char) (jwks : JWKS)
    (expectedIss expectedAud : List Char) (now : Nat) :
    Except FlexiErr FlexiJWTPayload :=
  match splitOnDot token with
  | [headerB64, payloadB64, signatureB64] =>
      match base64UrlDecode headerB64 with
      | none => .error .decodeError
      | some hb =>
      match C.headerDec hb with
      | none => .error .parseError
      | some header =>
      if header.alg ≠ ("RS256").toList then .error (.unsupportedAlg header.alg)
      else
      match base64UrlDecode payloadB64 with
      | none => .error .decodeError
      | some pb =>
      match C.payloadDec pb with
      | none => .error .parseError
      | some payload =>
      if payload.iss ≠ expectedIss then .error (.invalidIssuer payload.iss)
      else if payload.aud ≠ expectedAud then .error (.invalidAudience payload.aud)
      else if truthyNum payload.exp ∧ payload.exp.getD 0 < now then .error .tokenExpired
      else if truthyNum payload.nbf ∧ now < payload.nbf.getD 0 then .error .tokenNotYetValid
      else if payload.email = [] then .error .missingEmail
      else
      match selectJWK jwks.keys header.kid with
      | none => .error .noMatchingKey
      | some jwk =>
      match base64UrlDecode signatureB64 with
      | none => .error .decodeError
      | some sigBytes =>
      if C.rsaVerify jwk sigBytes (strBytes (headerB64 ++ '.' :: payloadB64)) then .ok payload
      else .error .invalidSignature
  | _ => .error .invalidFormat

/-! ## User directory and replay guard (`db.ts`)

The D1 store is an explicit state: `users` is the `sso_users` table and
`seen` the `jti` column of the `jwt_seen` table. -/

/-- A row of `sso_users` (`UserRow`). -/
structure UserRow where
  user_id : List Char
  email : List Char
  status : List Char
  roles : List Char
  updated_at : Nat
deriving DecidableEq

/-- The durable store. -/
structure DB where
  users : List UserRow
  seen : List (List Char)
deriving DecidableEq

/-- `getUserByEmail`: `SELECT … FROM sso_users WHERE email = ?`
(`email` is the primary key). -/
def getUserByEmail (db : DB) (email : List Char) : Option UserRow :=
  db.users.find? (fun u => u.email == email)

/-- `markJtiSeen`: `INSERT INTO jwt_seen … ON CONFLICT(jti) DO NOTHING`,
returning whether a row was actually inserted (`meta.changes > 0`; the
unique-constraint catch also yields `false`). -/
def markJtiSeen (db : DB) (jti : List Char) : Bool × DB :=
  if db.seen.contains jti then (false, db)
  else (true, { db with seen := jti :: db.seen })

/-! ## The worker (`handleVibeAccess`, `handleProtected`, `fetch`) -/

/-- Configuration bindings (`SSOEnv`).  `PROTECTED_PFX` models the source
binding named PROTECTED_PREFIX. -/
structure Env where
  FLEXI_ISS : List Char
  FLEXI_AUD : List Char
  VIBE_ISS : List Char
  VIBE_AUD : List Char
  VIBE_ACCESS_SECRET : List Char
  VIBE_COOKIE_NAME : List Char
  PROTECTED_PFX : List Char
deriving DecidableEq

/-- Observable part of a worker `Response`: status, the machine-readable
`code` and diagnostic `message` of the JSON error body, and the session
token carried by a `Set-Cookie` header. -/
structure Resp where
  status : Nat
  code : Option (List Char)
  message : Option (List Char)
  cookie : Option (List Char)
deriving DecidableEq

/-- `errorResponse(code, error, status, message?)` from the worker. -/
def errorResponse (code : List Char) (status : Nat) (message : Option (List Char)) : Resp :=
  ⟨status, some code, message, none⟩

/-- Parsed request body of the exchange endpoint; `none` fields model
absent properties of the JSON object. -/
structure RequestBody where
  jwt : Option (List Char)
  email : Option (List Char)
deriving DecidableEq

/-- Model of `String.prototype.toLowerCase`. -/
def toLower (s : List Char) : List Char := s.map Char.toLower

/-- User lookup and session issuance: the tail of `handleVibeAccess` after
the replay check (user directory, suspension check, token signing, cookie). -/
def vibeUserStep (V : VibeCodec) (env : Env) (email : List Char) (now : Nat)
    (db : DB) : Resp × DB :=
  match getUserByEmail db email with
  | none =>
      (errorResponse ("USER_NOT_ALLOWED").toList 403
        (some ("User not found in allowed users list").toList), db)
  | some user =>
      if user.status = ("suspended").toList then
        (errorResponse ("USER_SUSPENDED").toList 403
          (some ("User account is suspended").toList), db)
      else
        let vibeToken := signVibeAccessHS256 V
          ⟨env.VIBE_ISS, env.VIBE_AUD, user.user_id, user.email, user.roles⟩
          env.VIBE_ACCESS_SECRET 600 now
        (⟨204, none, none, some vibeToken⟩, db)

/-- `handleVibeAccess` after a successful JWT verification: email-mismatch
check, replay check (only when `payload.jti` is truthy), then the user
step. -/
def vibePostVerify (V : VibeCodec) (env : Env) (payload : FlexiJWTPayload)
    (email : List Char) (now : Nat) (db : DB) : Resp × DB :=
  if toLower payload.email ≠ toLower email then
    (errorResponse ("EMAIL_MISMATCH").toList 401
      (some ("Email in body does not match JWT email claim").toList), db)
  else if truthyStr payload.jti then
    let r := markJtiSeen db (payload.jti.getD [])
    if r.1 = false then
      (errorResponse ("REPLAYED_JTI").toList 409
        (some ("This JWT has already been used").toList), r.2)
    else vibeUserStep V env email now r.2
  else vibeUserStep V env email now db

/-- `handleVibeAccess` from the worker: body parsing (`none` models a JSON
parse failure), required-field check, JWT verification, then
`vibePostVerify`. -/
def handleVibeAccess (C : FlexiCodec) (V : VibeCodec) (env : Env) (jwks : JWKS)
    (body : Option RequestBody) (now : Nat) (db : DB) : Resp × DB :=
  match body with
  | none =>
      (errorResponse ("INVALID_BODY").toList 400
        (some ("Request body must be valid JSON").toList), db)
  | some b =>
      if !truthyStr b.jwt || !truthyStr b.email then
        (errorResponse ("INVALID_BODY").toList 400
          (some ("Both jwt and email fields are required").toList), db)
      else
        match verifyFlexiJWT_RS256 C (b.jwt.getD []) jwks env.FLEXI_ISS env.FLEXI_AUD now with
        | .error e => (errorResponse ("JWT_INVALID").toList 401 (some (flexiErrMsg e)), db)
        | .ok payload => vibePostVerify V env payload (b.email.getD []) now db

/-- The CORS allow-list of the worker. -/
def ALLOWED_ORIGINS : List (List Char) :=
  [("https://flexifunnels.com").toList,
   ("https://www.flexifunnels.com").toList,
   ("https://dev-app.flexifunnels.com").toList,
   ("https://app.flexifunnels.com").toList,
   ("http://flexifunnels.local.com").toList]

/-- Whether `needle` occurs at the start of `hay`. -/
def startsWithList : List Char → List Char → Bool
  | [], _ => true
  | _ :: _, [] => false
  | a :: as, b :: bs => a == b && startsWithList as bs

/-- Whether `needle` occurs anywhere in `hay` (JS `String.prototype.includes`). -/
def containsSub (needle : List Char) : List Char → Bool
  | [] => startsWithList needle []
  | c :: rest => startsWithList needle (c :: rest) || containsSub needle rest

/-- `contentType?.includes("application/json")` with optional chaining
(an absent header is falsy). -/
def ctIncludesJson : Option (List Char) → Bool
  | none => false
  | some ct => containsSub (("application/json").toList) ct

/-- The `fetch` route for `POST /auth/vibe-access` after the origin check:
content-type gate, then `handleVibeAccess`. -/
def fetchVibeAccessCT (C : FlexiCodec) (V : VibeCodec) (env : Env) (jwks : JWKS)
    (contentType : Option (List Char)) (body : Option RequestBody) (now : Nat)
    (db : DB) : Resp × DB :=
  if !ctIncludesJson contentType then
    (errorResponse ("INVALID_CONTENT_TYPE").toList 400
      (some ("Content-Type must be application/json").toList), db)
  else handleVibeAccess C V env jwks body now db

/-- The worker `fetch` entry restricted to `POST /auth/vibe-access`:
`handleCORS` rejects a present, non-allow-listed Origin with 403 FORBIDDEN
(the path is not CORS-exempt and the method is not OPTIONS); then the
content-type gate and the handler run. -/
def fetchVibeAccess (C : FlexiCodec) (V : VibeCodec) (env : Env) (jwks : JWKS)
    (origin contentType : Option (List Char)) (body : Option RequestBody)
    (now : Nat) (db : DB) : Resp × DB :=
  match origin with
  | some o =>
      if !ALLOWED_ORIGINS.contains o then
        (errorResponse ("FORBIDDEN").toList 403 none, db)
      else fetchVibeAccessCT C V env jwks contentType body now db
  | none => fetchVibeAccessCT C V env jwks contentType body now db

/-- Cookie-map lookup `cookies[env.VIBE_COOKIE_NAME]`; the association list
is the map `parseCookies` produced from the Cookie header. -/
def lookupCookie (cookies : List (List Char × List Char)) (name : List Char) :
    Option (List Char) :=
  (cookies.find? (fun p => p.1 == name)).map (fun p => p.2)

/-- `handleProtected` from the worker.  The `if (!token)` guard is a JS
truthiness check: an absent cookie and a present cookie with an empty
value both take the `No session cookie found` branch.  It touches no
durable state; its two upstream interactions (the one-time handoff call
and the reverse proxy, lines after a successful cookie verification) are
the opaque `handoff` and `proxy` parameters. -/
def handleProtected (V : VibeCodec) (env : Env)
    (cookies : List (List Char × List Char)) (pathname method : List Char)
    (now : Nat) (handoff : VibeAccessPayload → List Char → Resp)
    (proxy : VibeAccessPayload → List Char → List Char → Resp) : Resp :=
  let token := lookupCookie cookies env.VIBE_COOKIE_NAME
  if !truthyStr token then
    errorResponse ("NO_SESSION").toList 401 (some ("No session cookie found").toList)
  else
    match verifyVibeAccessHS256 V (token.getD []) env.VIBE_ACCESS_SECRET now with
    | .error e => errorResponse ("NO_SESSION").toList 401 (some (vibeErrMsg e))
    | .ok payload =>
        if (pathname = env.PROTECTED_PFX ∨ pathname = env.PROTECTED_PFX ++ ['/'])
            ∧ method = ("GET").toList then
          handoff payload pathname
        else proxy payload pathname method

/-! ## The session-token round trip -/

/-- A concrete executable stand-in for the abstract platform codecs of the
HS256 signer/verifier, used to evaluate theorems at concrete inputs. -/
def testVibeCodec (fp : VibeAccessPayload) : VibeCodec where
  headerEnc := [0]
  headerDec := fun bs => if bs = [0] then some (("HS256").toList) else none
  payloadEnc := fun _ => [1]
  payloadDec := fun bs => if bs = [1] then some fp else none
  hmac := fun _ _ => [2]

/-- Concrete session payload used by witnesses. -/
def wVibePayload : VibeAccessPayload := ⟨[], [], [], [], [], 10, 0⟩

/-- The claim-validation failures of the assertion verifier (issuer,
audience, expiry, not-before, email). -/
def FlexiErr.isClaimErr : FlexiErr → Bool
  | .invalidIssuer _ => true
  | .invalidAudience _ => true
  | .tokenExpired => true
  | .tokenNotYetValid => true
  | .missingEmail => true
  | _ => false

/-- Evaluation of `verifyFlexiJWT_RS256` once the three parts split and the
header/payload parse; the residual computation follows the source order:
algorithm, issuer, audience, expiry, not-before, email, key selection,
signature. -/
instance {ε α : Type} [DecidableEq ε] [DecidableEq α] :
    DecidableEq (Except ε α) := fun a b =>
  match a, b with
  | .ok x, .ok y =>
      if h : x = y then isTrue (by rw [h])
      else isFalse (by intro he; cases he; exact h rfl)
  | .error x, .error y =>
      if h : x = y then isTrue (by rw [h])
      else isFalse (by intro he; cases he; exact h rfl)
  | .ok _, .error _ => isFalse (by intro he; cases he)
  | .error _, .ok _ => isFalse (by intro he; cases he)

/-! ## Concrete fixtures used by witnesses and counterexamples -/

/-- A concrete executable stand-in for the platform codecs of the RS256
verifier: fixed parse results, parameterised signature primitive. -/
def testFlexiCodec (hdr : FlexiHeader) (P : FlexiJWTPayload)
    (rv : JWK → List Nat → List Nat → Bool) : FlexiCodec where
  headerDec := fun bs => if bs = [0] then some hdr else none
  payloadDec := fun bs => if bs = [0] then some P else none
  rsaVerify := rv

/-- Signature primitive accepting nothing. -/
def rvFalse : JWK → List Nat → List Nat → Bool := fun _ _ _ => false

/-- Signature primitive accepting everything. -/
def rvTrue : JWK → List Nat → List Nat → Bool := fun _ _ _ => true

/-- A well-formed three-part token; each `AA` segment base64url-decodes to
the byte string `[0]`. -/
def wToken : List Char := ("AA.AA.AA").toList

/-- Concrete RS256 header without a key-id hint. -/
def wHdr : FlexiHeader := ⟨("RS256").toList, none⟩

/-- Concrete environment bindings. -/
def wEnv : Env :=
  ⟨("flexi").toList, ("handoff").toList, ("vibe").toList, ("vibe-app").toList,
   ("secret").toList, ("vibe_access").toList, ("/app").toList⟩

/-- Concrete key set with a single key of key-id `k1`. -/
def wJWKS : JWKS := ⟨[⟨some (("k1").toList), ("n").toList, ("e").toList⟩]⟩

/-- A fully valid concrete assertion payload carrying nonce `n1`. -/
def wFlexiPayload : FlexiJWTPayload :=
  ⟨("flexi").toList, ("handoff").toList, ("u1").toList, ("a@b.com").toList,
   some 9999, none, none, some (("n1").toList)⟩

/-- Like `wFlexiPayload` but with a wrong issuer. -/
def wBadIssPayload : FlexiJWTPayload :=
  ⟨("evil").toList, ("handoff").toList, ("u1").toList, ("a@b.com").toList,
   some 9999, none, none, some (("n1").toList)⟩

/-- Like `wFlexiPayload` but with `exp = 0` (an expiry in the past that is
falsy in JS). -/
def wExpZeroPayload : FlexiJWTPayload :=
  ⟨("flexi").toList, ("handoff").toList, ("u1").toList, ("a@b.com").toList,
   some 0, none, none, some (("n1").toList)⟩

/-- Like `wFlexiPayload` but with an upper-case email claim. -/
def wUpperPayload : FlexiJWTPayload :=
  ⟨("flexi").toList, ("handoff").toList, ("u1").toList, ("A@B.COM").toList,
   some 9999, none, none, some (("n1").toList)⟩

/-- Like `wFlexiPayload` but with an empty-string `jti` claim. -/
def wEmptyJtiPayload : FlexiJWTPayload :=
  ⟨("flexi").toList, ("handoff").toList, ("u1").toList, ("a@b.com").toList,
   some 9999, none, none, some []⟩

/-- An active concrete user record for `a@b.com`. -/
def wUser : UserRow :=
  ⟨("u1").toList, ("a@b.com").toList, ("active").toList, ("viewer").toList, 0⟩

/-- Store holding only `wUser`, with no nonce seen yet. -/
def wDB : DB := ⟨[wUser], []⟩

/-- Concrete exchange request body matching `wFlexiPayload`. -/
def wBody : RequestBody := ⟨some wToken, some (("a@b.com").toList)⟩

/-- Every machine-readable failure code a `POST /auth/vibe-access` request
can receive: the seven codes of the spec's interface table plus the
`INVALID_CONTENT_TYPE` code of the content-type gate and the `FORBIDDEN`
code of the origin guard. -/
def vibeAccessFailureCodes : List (List Char) :=
  [("INVALID_BODY").toList, ("JWT_INVALID").toList, ("EMAIL_MISMATCH").toList,
   ("USER_NOT_ALLOWED").toList, ("USER_SUSPENDED").toList, ("REPLAYED_JTI").toList,
   ("INTERNAL_ERROR").toList, ("INVALID_CONTENT_TYPE").toList, ("FORBIDDEN").toList]

/-- The ordered-claim-checks property of the assertion verifier, for a
token whose header and payload parse as given: each check fires only when
all earlier checks passed, the expiry/not-before checks fire only for
truthy (non-zero) values, and a non-zero past expiry makes the whole
exchange fail 401 whatever the signature primitive says. -/
def ClaimChecksOrdered (C : FlexiCodec) (token : List Char) (jwks : JWKS)
    (expIss expAud : List Char) (now : Nat) (payload : FlexiJWTPayload) : Prop :=
  (payload.iss ≠ expIss →
    verifyFlexiJWT_RS256 C token jwks expIss expAud now =
      .error (.invalidIssuer payload.iss)) ∧
  (payload.iss = expIss → payload.aud ≠ expAud →
    verifyFlexiJWT_RS256 C token jwks expIss expAud now =
      .error (.invalidAudience payload.aud)) ∧
  (payload.iss = expIss → payload.aud = expAud →
    ∀ x, payload.exp = some x → x ≠ 0 → x < now →
    verifyFlexiJWT_RS256 C token jwks expIss expAud now = .error .tokenExpired) ∧
  (payload.iss = expIss → payload.aud = expAud →
    ¬(truthyNum payload.exp ∧ payload.exp.getD 0 < now) →
    ∀ x, payload.nbf = some x → x ≠ 0 → now < x →
    verifyFlexiJWT_RS256 C token jwks expIss expAud now = .error .tokenNotYetValid) ∧
  (payload.iss = expIss → payload.aud = expAud →
    ¬(truthyNum payload.exp ∧ payload.exp.getD 0 < now) →
    ¬(truthyNum payload.nbf ∧ now < payload.nbf.getD 0) →
    payload.email = [] →
    verifyFlexiJWT_RS256 C token jwks expIss expAud now = .error .missingEmail) ∧
  (∀ (V : VibeCodec) (env : Env) (b : RequestBody) (db : DB),
    truthyStr b.jwt = true → truthyStr b.email = true →
    b.jwt = some token → env.FLEXI_ISS = expIss → env.FLEXI_AUD = expAud →
    payload.iss = expIss → payload.aud = expAud →
    ∀ x, payload.exp = some x → x ≠ 0 → x < now →
    (handleVibeAccess C V env jwks (some b) now db).1 =
      errorResponse (("JWT_INVALID").toList) 401 (some (flexiErrMsg .tokenExpired)))

/-! ## Lemmas -/

theorem b64Idx_alph {n : Nat} (h : n < 64) : b64Idx (alph n) = n := by
  revert h
  have : ∀ n < 64, b64Idx (alph n) = n := by decide
  exact this n

theorem isB64_alph {n : Nat} (h : n < 64) : isB64 (alph n) = true := by
  revert h
  have : ∀ n < 64, isB64 (alph n) = true := by decide
  exact this n

theorem alph_ne_pad {n : Nat} (h : n < 64) : alph n ≠ '=' := by
  revert h
  have : ∀ n < 64, alph n ≠ '=' := by decide
  exact this n

/-- `atob` inverts `btoa` on byte lists. -/
theorem atob_btoa : ∀ bs : List Nat, (∀ b ∈ bs, b < 256) → atob (btoa bs) = some bs
  | [], _ => by simp [btoa, atob]
  | [a], h => by
      have ha : a < 256 := h a (by simp)
      have h1 : a / 4 < 64 := by omega
      have h2 : a % 4 * 16 < 64 := by omega
      simp [btoa, atob, isB64_alph h1, isB64_alph h2, b64Idx_alph h1, b64Idx_alph h2]
      omega
  | [a, b], h => by
      have ha : a < 256 := h a (by simp)
      have hb : b < 256 := h b (by simp)
      have h1 : a / 4 < 64 := by omega
      have h2 : a % 4 * 16 + b / 16 < 64 := by omega
      have h3 : b % 16 * 4 < 64 := by omega
      simp [btoa, atob, alph_ne_pad h3, isB64_alph h1, isB64_alph h2, isB64_alph h3,
        b64Idx_alph h1, b64Idx_alph h2, b64Idx_alph h3]
      omega
  | a :: b :: c :: rest, h => by
      have ha : a < 256 := h a (by simp)
      have hb : b < 256 := h b (by simp)
      have hc : c < 256 := h c (by simp)
      have hrest : ∀ x ∈ rest, x < 256 := by
        intro x hx
        exact h x (by simp [hx])
      have h1 : a / 4 < 64 := by omega
      have h2 : a % 4 * 16 + b / 16 < 64 := by omega
      have h3 : b % 16 * 4 + c / 64 < 64 := by omega
      have h4 : c % 64 < 64 := by omega
      have ih := atob_btoa rest hrest
      simp [btoa, atob, alph_ne_pad h4, isB64_alph h1, isB64_alph h2, isB64_alph h3,
        isB64_alph h4, b64Idx_alph h1, b64Idx_alph h2, b64Idx_alph h3, b64Idx_alph h4, ih]
      omega

theorem mem_ALPH_alph {n : Nat} (h : n < 64) : alph n ∈ ALPH := by
  revert h
  have : ∀ n < 64, alph n ∈ ALPH := by decide
  exact this n

/-- `btoa` output is alphabet characters followed by at most two `=` pads,
with total length a multiple of four. -/
theorem btoa_shape : ∀ bs : List Nat, (∀ b ∈ bs, b < 256) →
    ∃ body k, btoa bs = body ++ List.replicate k '=' ∧ k ≤ 2 ∧
      (∀ c ∈ body, c ∈ ALPH) ∧ (body.length + k) % 4 = 0
  | [], _ => ⟨[], 0, by simp [btoa]⟩
  | [a], h => by
      have ha : a < 256 := h a (by simp)
      have h1 : a / 4 < 64 := by omega
      have h2 : a % 4 * 16 < 64 := by omega
      refine ⟨[alph (a / 4), alph (a % 4 * 16)], 2, by simp [btoa, List.replicate], by omega,
        ?_, by simp⟩
      intro c hc
      simp at hc
      rcases hc with hc | hc <;> subst hc
      · exact mem_ALPH_alph h1
      · exact mem_ALPH_alph h2
  | [a, b], h => by
      have ha : a < 256 := h a (by simp)
      have hb : b < 256 := h b (by simp)
      have h1 : a / 4 < 64 := by omega
      have h2 : a % 4 * 16 + b / 16 < 64 := by omega
      have h3 : b % 16 * 4 < 64 := by omega
      refine ⟨[alph (a / 4), alph (a % 4 * 16 + b / 16), alph (b % 16 * 4)], 1,
        by simp [btoa, List.replicate], by omega, ?_, by simp⟩
      intro c hc
      simp at hc
      rcases hc with hc | hc | hc <;> subst hc
      · exact mem_ALPH_alph h1
      · exact mem_ALPH_alph h2
      · exact mem_ALPH_alph h3
  | a :: b :: c :: rest, h => by
      have ha : a < 256 := h a (by simp)
      have hb : b < 256 := h b (by simp)
      have hc : c < 256 := h c (by simp)
      have hrest : ∀ x ∈ rest, x < 256 := by
        intro x hx
        exact h x (by simp [hx])
      have h1 : a / 4 < 64 := by omega
      have h2 : a % 4 * 16 + b / 16 < 64 := by omega
      have h3 : b % 16 * 4 + c / 64 < 64 := by omega
      have h4 : c % 64 < 64 := by omega
      obtain ⟨body, k, hbt, hk, hmem, hlen⟩ := btoa_shape rest hrest
      refine ⟨alph (a / 4) :: alph (a % 4 * 16 + b / 16) :: alph (b % 16 * 4 + c / 64)
        :: alph (c % 64) :: body, k, ?_, hk, ?_, by simp; omega⟩
      · simp [btoa, hbt]
      · intro x hx
        simp at hx
        rcases hx with hx | hx | hx | hx | hx
        · exact hx ▸ mem_ALPH_alph h1
        · exact hx ▸ mem_ALPH_alph h2
        · exact hx ▸ mem_ALPH_alph h3
        · exact hx ▸ mem_ALPH_alph h4
        · exact hmem x hx

theorem toUrl_ne_pad {c : Char} (h : c ∈ ALPH) : (toUrl c != '=') = true := by
  revert h
  have : ∀ c ∈ ALPH, (toUrl c != '=') = true := by decide
  exact this c

theorem fromUrl_toUrl {c : Char} (h : c ∈ ALPH) : fromUrl (toUrl c) = c := by
  revert h
  have : ∀ c ∈ ALPH, fromUrl (toUrl c) = c := by decide
  exact this c

theorem toUrl_ne_dot {c : Char} (h : c ∈ ALPH) : toUrl c ≠ '.' := by
  revert h
  have : ∀ c ∈ ALPH, toUrl c ≠ '.' := by decide
  exact this c

theorem map_eq_self_of_mem {f : Char → Char} :
    ∀ l : List Char, (∀ c ∈ l, f c = c) → l.map f = l
  | [], _ => rfl
  | c :: l, h => by
      have ih := map_eq_self_of_mem l (fun x hx => h x (by simp [hx]))
      simp [ih, h c (by simp)]

/-- `base64UrlEncode` is exactly the alphabet part of `btoa`, URL-mapped. -/
theorem base64UrlEncode_eq {bs : List Nat} {body : List Char} {k : Nat}
    (hbt : btoa bs = body ++ List.replicate k '=') (hmem : ∀ c ∈ body, c ∈ ALPH) :
    base64UrlEncode bs = body.map toUrl := by
  unfold base64UrlEncode
  rw [hbt, List.map_append, List.filter_append]
  have e1 : (body.map toUrl).filter (fun c => c != '=') = body.map toUrl := by
    apply List.filter_eq_self.mpr
    intro c hc
    simp at hc
    obtain ⟨c0, hc0, rfl⟩ := hc
    exact toUrl_ne_pad (hmem c0 hc0)
  have e2 : ((List.replicate k '=').map toUrl).filter (fun c => c != '=') = [] := by
    apply List.filter_eq_nil_iff.mpr
    intro c hc
    simp [toUrl] at hc
    simp [hc]
  rw [e1, e2, List.append_nil]

/-- Round trip of the URL-safe base64 coding from `jose.ts`. -/
theorem base64Url_roundtrip (bs : List Nat) (h : ∀ b ∈ bs, b < 256) :
    base64UrlDecode (base64UrlEncode bs) = some bs := by
  obtain ⟨body, k, hbt, hk, hmem, hlen⟩ := btoa_shape bs h
  rw [base64UrlEncode_eq hbt hmem]
  unfold base64UrlDecode
  have e3 : (body.map toUrl).map fromUrl = body := by
    rw [List.map_map]
    exact map_eq_self_of_mem body (fun c hc => fromUrl_toUrl (hmem c hc))
  rw [e3]
  have e4 : pad4 body = body ++ List.replicate k '=' := by
    unfold pad4
    congr 2
    omega
  rw [e4, ← hbt]
  exact atob_btoa bs h

/-- `base64UrlEncode` output never contains a dot. -/
theorem base64UrlEncode_no_dot (bs : List Nat) (h : ∀ b ∈ bs, b < 256) :
    '.' ∉ base64UrlEncode bs := by
  obtain ⟨body, k, hbt, hk, hmem, hlen⟩ := btoa_shape bs h
  rw [base64UrlEncode_eq hbt hmem]
  intro hd
  simp at hd
  obtain ⟨c0, hc0, hc0d⟩ := hd
  exact toUrl_ne_dot (hmem c0 hc0) hc0d

theorem splitOnDot_no_dot : ∀ s : List Char, '.' ∉ s → splitOnDot s = [s]
  | [], _ => rfl
  | c :: rest, h => by
      have hc : ¬(c = '.') := fun he => h (by simp [he])
      have ih := splitOnDot_no_dot rest (fun hm => h (by simp [hm]))
      simp [splitOnDot, hc, ih]

theorem splitOnDot_append : ∀ (a r : List Char), '.' ∉ a →
    splitOnDot (a ++ '.' :: r) = a :: splitOnDot r
  | [], r, _ => by simp [splitOnDot]
  | c :: a, r, h => by
      have hc : ¬(c = '.') := fun he => h (by simp [he])
      have ih := splitOnDot_append a r (fun hm => h (by simp [hm]))
      simp [splitOnDot, hc, ih]

/-- Splitting a well-formed three-part token recovers the parts. -/
theorem splitOnDot_three {a b c : List Char} (ha : '.' ∉ a) (hb : '.' ∉ b)
    (hc : '.' ∉ c) : splitOnDot ((a ++ '.' :: b) ++ '.' :: c) = [a, b, c] := by
  rw [List.append_assoc, List.cons_append, splitOnDot_append a _ ha,
    splitOnDot_append b c hb, splitOnDot_no_dot c hc]

/-- Evaluation of the verifier on a freshly signed token: with faithful
platform codecs the only thing that can reject is the expiry check. -/
theorem verify_sign_eq (V : VibeCodec) (p : VibeClaims) (secret : List Char)
    (ttl now now2 : Nat)
    (hhB : ∀ x ∈ V.headerEnc, x < 256)
    (hhd : V.headerDec V.headerEnc = some (("HS256").toList))
    (hpB : ∀ x ∈ V.payloadEnc ⟨p.iss, p.aud, p.sub, p.email, p.roles, now + ttl, now⟩, x < 256)
    (hpd : V.payloadDec
        (V.payloadEnc ⟨p.iss, p.aud, p.sub, p.email, p.roles, now + ttl, now⟩) =
      some ⟨p.iss, p.aud, p.sub, p.email, p.roles, now + ttl, now⟩)
    (hmB : ∀ x ∈ V.hmac secret (base64UrlEncode V.headerEnc ++ '.' ::
        base64UrlEncode (V.payloadEnc
          ⟨p.iss, p.aud, p.sub, p.email, p.roles, now + ttl, now⟩)), x < 256) :
    verifyVibeAccessHS256 V (signVibeAccessHS256 V p secret ttl now) secret now2 =
      if now + ttl < now2 then .error .tokenExpired
      else .ok ⟨p.iss, p.aud, p.sub, p.email, p.roles, now + ttl, now⟩ := by
  have hsign : signVibeAccessHS256 V p secret ttl now =
      (base64UrlEncode V.headerEnc ++ '.' ::
        base64UrlEncode (V.payloadEnc
          ⟨p.iss, p.aud, p.sub, p.email, p.roles, now + ttl, now⟩)) ++ '.' ::
        base64UrlEncode (V.hmac secret (base64UrlEncode V.headerEnc ++ '.' ::
          base64UrlEncode (V.payloadEnc
            ⟨p.iss, p.aud, p.sub, p.email, p.roles, now + ttl, now⟩))) := rfl
  rw [hsign]
  have hsplit := splitOnDot_three (base64UrlEncode_no_dot _ hhB)
    (base64UrlEncode_no_dot _ hpB) (base64UrlEncode_no_dot _ hmB)
  simp only [verifyVibeAccessHS256, hsplit, base64Url_roundtrip _ hhB,
    base64Url_roundtrip _ hpB, base64Url_roundtrip _ hmB, hhd, hpd]
  simp

/-- A claim-validation outcome of `verifyFlexiJWT_RS256` does not depend on
the signature-verification primitive: any two codecs that agree on parsing
produce the same claim-validation errors, whatever their `rsaVerify`. -/
theorem flexi_claimErr_indep (C1 C2 : FlexiCodec)
    (hh : C1.headerDec = C2.headerDec) (hp : C1.payloadDec = C2.payloadDec)
    (token : List Char) (jwks : JWKS) (expIss expAud : List Char) (now : Nat)
    (e : FlexiErr) (he : e.isClaimErr = true)
    (h1 : verifyFlexiJWT_RS256 C1 token jwks expIss expAud now = .error e) :
    verifyFlexiJWT_RS256 C2 token jwks expIss expAud now = .error e := by
  unfold verifyFlexiJWT_RS256 at h1 ⊢
  rw [← hh, ← hp]
  split at h1
  case h_2 => exact h1
  case h_1 headerB64 payloadB64 signatureB64 heq1 =>
    split at h1
    case h_1 heq2 => exact h1
    case h_2 hb heq2 =>
      split at h1
      case h_1 heq3 => exact h1
      case h_2 header heq3 =>
        split at h1
        · rename_i halg
          rw [if_pos halg]
          exact h1
        · rename_i halg
          rw [if_neg halg]
          split at h1
          case h_1 heq4 => exact h1
          case h_2 pb heq4 =>
            split at h1
            case h_1 heq5 => exact h1
            case h_2 payload heq5 =>
              split at h1
              · rename_i hiss
                rw [if_pos hiss]
                exact h1
              · rename_i hiss
                rw [if_neg hiss]
                split at h1
                · rename_i haud
                  rw [if_pos haud]
                  exact h1
                · rename_i haud
                  rw [if_neg haud]
                  split at h1
                  · rename_i hexp
                    rw [if_pos hexp]
                    exact h1
                  · rename_i hexp
                    rw [if_neg hexp]
                    split at h1
                    · rename_i hnbf
                      rw [if_pos hnbf]
                      exact h1
                    · rename_i hnbf
                      rw [if_neg hnbf]
                      split at h1
                      · rename_i hem
                        rw [if_pos hem]
                        exact h1
                      · rename_i hem
                        rw [if_neg hem]
                        split at h1
                        case h_1 heq6 => exact h1
                        case h_2 jwk heq6 =>
                          split at h1
                          case h_1 heq7 => exact h1
                          case h_2 sigBytes heq7 =>
                            split at h1
                            · exact absurd h1 (by simp)
                            · cases h1
                              simp [FlexiErr.isClaimErr] at he

theorem verifyFlexi_parsed (C : FlexiCodec) (token : List Char) (jwks : JWKS)
    (expIss expAud : List Char) (now : Nat) {hB pB sB : List Char}
    {hb pb : List Nat} {header : FlexiHeader} {payload : FlexiJWTPayload}
    (hsplit : splitOnDot token = [hB, pB, sB])
    (hd1 : base64UrlDecode hB = some hb) (hd2 : C.headerDec hb = some header)
    (hd3 : base64UrlDecode pB = some pb) (hd4 : C.payloadDec pb = some payload) :
    verifyFlexiJWT_RS256 C token jwks expIss expAud now =
      (if header.alg ≠ ("RS256").toList then .error (.unsupportedAlg header.alg)
       else if payload.iss ≠ expIss then .error (.invalidIssuer payload.iss)
       else if payload.aud ≠ expAud then .error (.invalidAudience payload.aud)
       else if truthyNum payload.exp ∧ payload.exp.getD 0 < now then .error .tokenExpired
       else if truthyNum payload.nbf ∧ now < payload.nbf.getD 0 then .error .tokenNotYetValid
       else if payload.email = [] then .error .missingEmail
       else
         match selectJWK jwks.keys header.kid with
         | none => .error .noMatchingKey
         | some jwk =>
             match base64UrlDecode sB with
             | none => .error .decodeError
             | some sigBytes =>
                 if C.rsaVerify jwk sigBytes (strBytes (hB ++ '.' :: pB)) then .ok payload
                 else .error .invalidSignature) := by
  unfold verifyFlexiJWT_RS256
  simp only [hsplit, hd1, hd2, hd3, hd4]

end SSO

namespace SSOClaims

open SSO

/-- C4: Round-trip law of the session token: for every subject/email/roles
payload, secret and TTL (with the platform JSON/HMAC codecs behaving as on
the signed data), a token produced by `signVibeAccessHS256` is accepted by
`verifyVibeAccessHS256` with the same secret and returns the signed payload
whenever the current time is before the expiry `now + ttl`, and
verification deterministically fails with the expiry error once the expiry
has passed. -/
theorem session_token_roundtrip
    (V : VibeCodec) (p : VibeClaims) (secret : List Char) (ttl now now2 : Nat)
    (hhB : ∀ x ∈ V.headerEnc, x < 256)
    (hhd : V.headerDec V.headerEnc = some (("HS256").toList))
    (hpB : ∀ x ∈ V.payloadEnc ⟨p.iss, p.aud, p.sub, p.email, p.roles, now + ttl, now⟩, x < 256)
    (hpd : V.payloadDec
        (V.payloadEnc ⟨p.iss, p.aud, p.sub, p.email, p.roles, now + ttl, now⟩) =
      some ⟨p.iss, p.aud, p.sub, p.email, p.roles, now + ttl, now⟩)
    (hmB : ∀ x ∈ V.hmac secret (base64UrlEncode V.headerEnc ++ '.' ::
        base64UrlEncode (V.payloadEnc
          ⟨p.iss, p.aud, p.sub, p.email, p.roles, now + ttl, now⟩)), x < 256) :
    (now2 < now + ttl →
      verifyVibeAccessHS256 V (signVibeAccessHS256 V p secret ttl now) secret now2 =
        .ok ⟨p.iss, p.aud, p.sub, p.email, p.roles, now + ttl, now⟩) ∧
    (now + ttl < now2 →
      verifyVibeAccessHS256 V (signVibeAccessHS256 V p secret ttl now) secret now2 =
        .error .tokenExpired) := by
  have h := verify_sign_eq V p secret ttl now now2 hhB hhd hpB hpd hmB
  constructor
  · intro hlt
    rw [h, if_neg (by omega)]
  · intro hgt
    rw [h, if_pos hgt]

/-- Witness for C4 at a concrete payload, secret, TTL 10, issue time 0. -/
theorem session_token_roundtrip_witness :
    ((∀ x ∈ (testVibeCodec wVibePayload).headerEnc, x < 256) ∧
     (testVibeCodec wVibePayload).headerDec (testVibeCodec wVibePayload).headerEnc =
       some (("HS256").toList) ∧
     (∀ x ∈ (testVibeCodec wVibePayload).payloadEnc ⟨[], [], [], [], [], 0 + 10, 0⟩, x < 256) ∧
     (testVibeCodec wVibePayload).payloadDec
       ((testVibeCodec wVibePayload).payloadEnc ⟨[], [], [], [], [], 0 + 10, 0⟩) =
         some ⟨[], [], [], [], [], 0 + 10, 0⟩ ∧
     (∀ x ∈ (testVibeCodec wVibePayload).hmac []
        (base64UrlEncode (testVibeCodec wVibePayload).headerEnc ++ '.' ::
          base64UrlEncode ((testVibeCodec wVibePayload).payloadEnc
            ⟨[], [], [], [], [], 0 + 10, 0⟩)), x < 256)) ∧
    ((5 < 0 + 10 →
      verifyVibeAccessHS256 (testVibeCodec wVibePayload)
          (signVibeAccessHS256 (testVibeCodec wVibePayload) ⟨[], [], [], [], []⟩ [] 10 0) [] 5 =
        .ok ⟨[], [], [], [], [], 0 + 10, 0⟩) ∧
     (0 + 10 < 5 →
      verifyVibeAccessHS256 (testVibeCodec wVibePayload)
          (signVibeAccessHS256 (testVibeCodec wVibePayload) ⟨[], [], [], [], []⟩ [] 10 0) [] 5 =
        .error .tokenExpired)) :=
  ⟨⟨by decide, by decide, by decide, by decide, by decide⟩,
   session_token_roundtrip (testVibeCodec wVibePayload) ⟨[], [], [], [], []⟩ [] 10 0 5
     (by decide) (by decide) (by decide) (by decide) (by decide)⟩

/-- C2 (counterexample): the code violates the claimed order.  With a
signature primitive that rejects everything — so the signature can never
have been verified — a syntactically well-formed assertion with a wrong
issuer still produces the claim-validation outcome `invalidIssuer`:
`verifyFlexiJWT_RS256` validates claims before touching the key set or the
signature. -/
theorem signature_before_claims_counterexample :
    verifyFlexiJWT_RS256 (testFlexiCodec wHdr wBadIssPayload rvFalse) wToken wJWKS
        (("flexi").toList) (("handoff").toList) 100 =
      .error (.invalidIssuer (("evil").toList)) := by decide

/-- C2 (amended): on the handoff path, semantic claims validation is
performed before cryptographic signature verification: every
claim-validation outcome of `verifyFlexiJWT_RS256` is produced
independently of the signature-verification primitive, which is consulted
only after all claim checks pass. -/
theorem claims_precede_signature (C1 C2 : FlexiCodec)
    (hh : C1.headerDec = C2.headerDec) (hp : C1.payloadDec = C2.payloadDec)
    (token : List Char) (jwks : JWKS) (expIss expAud : List Char) (now : Nat)
    (e : FlexiErr) (he : e.isClaimErr = true)
    (h1 : verifyFlexiJWT_RS256 C1 token jwks expIss expAud now = .error e) :
    verifyFlexiJWT_RS256 C2 token jwks expIss expAud now = .error e :=
  flexi_claimErr_indep C1 C2 hh hp token jwks expIss expAud now e he h1

/-- Witness for C2: the issuer error is identical under the all-rejecting
and the all-accepting signature primitive. -/
theorem claims_precede_signature_witness :
    ((testFlexiCodec wHdr wBadIssPayload rvFalse).headerDec =
        (testFlexiCodec wHdr wBadIssPayload rvTrue).headerDec) ∧
    ((testFlexiCodec wHdr wBadIssPayload rvFalse).payloadDec =
        (testFlexiCodec wHdr wBadIssPayload rvTrue).payloadDec) ∧
    (FlexiErr.invalidIssuer (("evil").toList)).isClaimErr = true ∧
    verifyFlexiJWT_RS256 (testFlexiCodec wHdr wBadIssPayload rvFalse) wToken wJWKS
        (("flexi").toList) (("handoff").toList) 100 =
      .error (.invalidIssuer (("evil").toList)) ∧
    verifyFlexiJWT_RS256 (testFlexiCodec wHdr wBadIssPayload rvTrue) wToken wJWKS
        (("flexi").toList) (("handoff").toList) 100 =
      .error (.invalidIssuer (("evil").toList)) :=
  ⟨rfl, rfl, by decide, by decide,
   claims_precede_signature _ _ rfl rfl wToken wJWKS _ _ 100 _ (by decide) (by decide)⟩

/-- C5: key selection during assertion verification.  When the header names
a (non-empty) key-id: any selected key has exactly that key-id, and when no
key in the set has it, selection yields nothing — never a fallback key —
and the whole verification fails with `noMatchingKey`, which the exchange
endpoint reports as 401 JWT_INVALID.  Without a key-id hint the first key
of the set is selected.  (An empty-string `kid` is falsy in JS and does not
name a key-id; it behaves like an absent hint.) -/
theorem key_selection_exact (keys : List JWK) (k : List Char) (hk : k ≠ []) :
    (∀ jwk, selectJWK keys (some k) = some jwk → jwk.kid = some k) ∧
    ((∀ j ∈ keys, j.kid ≠ some k) → selectJWK keys (some k) = none) ∧
    (∀ keys2 : List JWK, selectJWK keys2 none = keys2.head?) ∧
    (∀ (C : FlexiCodec) (token : List Char) (jwks : JWKS) (expIss expAud : List Char)
        (now : Nat) (hB pB sB : List Char) (hb pb : List Nat) (payload : FlexiJWTPayload),
        splitOnDot token = [hB, pB, sB] →
        base64UrlDecode hB = some hb →
        C.headerDec hb = some ⟨("RS256").toList, some k⟩ →
        base64UrlDecode pB = some pb →
        C.payloadDec pb = some payload →
        payload.iss = expIss →
        payload.aud = expAud →
        ¬(truthyNum payload.exp ∧ payload.exp.getD 0 < now) →
        ¬(truthyNum payload.nbf ∧ now < payload.nbf.getD 0) →
        payload.email ≠ [] →
        (∀ j ∈ jwks.keys, j.kid ≠ some k) →
        verifyFlexiJWT_RS256 C token jwks expIss expAud now = .error .noMatchingKey) ∧
    (∀ (C : FlexiCodec) (V : VibeCodec) (env : Env) (jwks : JWKS)
        (b : RequestBody) (now : Nat) (db : DB),
        truthyStr b.jwt = true → truthyStr b.email = true →
        verifyFlexiJWT_RS256 C (b.jwt.getD []) jwks env.FLEXI_ISS env.FLEXI_AUD now =
          .error .noMatchingKey →
        (handleVibeAccess C V env jwks (some b) now db).1 =
          errorResponse (("JWT_INVALID").toList) 401 (some (flexiErrMsg .noMatchingKey))) := by
  have hsel : ∀ keys3 : List JWK, (∀ j ∈ keys3, j.kid ≠ some k) →
      selectJWK keys3 (some k) = none := by
    intro keys3 hnone
    unfold selectJWK
    rw [if_pos (by simp [truthyStr, hk])]
    rw [List.find?_eq_none]
    intro j hj
    simp [hnone j hj]
  refine ⟨?_, hsel keys, ?_, ?_, ?_⟩
  · intro jwk h
    unfold selectJWK at h
    rw [if_pos (by simp [truthyStr, hk])] at h
    have := List.find?_some h
    simpa using this
  · intro keys2
    unfold selectJWK
    rw [if_neg (by simp [truthyStr])]
  · intro C token jwks expIss expAud now hB pB sB hb pb payload
      hsplit hd1 hd2 hd3 hd4 hiss haud hexp hnbf hem hnok
    rw [verifyFlexi_parsed C token jwks expIss expAud now hsplit hd1 hd2 hd3 hd4]
    rw [if_neg (by simp), if_neg (by simp [hiss]), if_neg (by simp [haud]),
      if_neg hexp, if_neg hnbf, if_neg (by simpa using hem)]
    rw [hsel jwks.keys hnok]
  · intro C V env jwks b now db ht1 ht2 hv
    simp [handleVibeAccess, ht1, ht2, hv]

/-- Witness for C5 at key-id `k2` against a key set containing only `k1`. -/
theorem key_selection_exact_witness :
    (("k2").toList ≠ ([] : List Char)) ∧
    ((∀ jwk, selectJWK wJWKS.keys (some (("k2").toList)) = some jwk →
        jwk.kid = some (("k2").toList)) ∧
     ((∀ j ∈ wJWKS.keys, j.kid ≠ some (("k2").toList)) →
        selectJWK wJWKS.keys (some (("k2").toList)) = none) ∧
     (∀ keys2 : List JWK, selectJWK keys2 none = keys2.head?) ∧
     (∀ (C : FlexiCodec) (token : List Char) (jwks : JWKS) (expIss expAud : List Char)
         (now : Nat) (hB pB sB : List Char) (hb pb : List Nat) (payload : FlexiJWTPayload),
         splitOnDot token = [hB, pB, sB] →
         base64UrlDecode hB = some hb →
         C.headerDec hb = some ⟨("RS256").toList, some (("k2").toList)⟩ →
         base64UrlDecode pB = some pb →
         C.payloadDec pb = some payload →
         payload.iss = expIss →
         payload.aud = expAud →
         ¬(truthyNum payload.exp ∧ payload.exp.getD 0 < now) →
         ¬(truthyNum payload.nbf ∧ now < payload.nbf.getD 0) →
         payload.email ≠ [] →
         (∀ j ∈ jwks.keys, j.kid ≠ some (("k2").toList)) →
         verifyFlexiJWT_RS256 C token jwks expIss expAud now = .error .noMatchingKey) ∧
     (∀ (C : FlexiCodec) (V : VibeCodec) (env : Env) (jwks : JWKS)
         (b : RequestBody) (now : Nat) (db : DB),
         truthyStr b.jwt = true → truthyStr b.email = true →
         verifyFlexiJWT_RS256 C (b.jwt.getD []) jwks env.FLEXI_ISS env.FLEXI_AUD now =
           .error .noMatchingKey →
         (handleVibeAccess C V env jwks (some b) now db).1 =
           errorResponse (("JWT_INVALID").toList) 401 (some (flexiErrMsg .noMatchingKey)))) :=
  ⟨by decide, key_selection_exact wJWKS.keys (("k2").toList) (by decide)⟩

/-- C6 (counterexample): the claim fails at `exp = 0`.  The assertion's
expiry `0` lies in the past (`0 < 1000`), yet — because `payload.exp && …`
is falsy at `0` — the expiry check is skipped and the exchange succeeds
with 204 instead of failing with 401. -/
theorem claims_order_counterexample :
    ((0 : Nat) < 1000) ∧ wExpZeroPayload.exp = some 0 ∧
    (handleVibeAccess (testFlexiCodec wHdr wExpZeroPayload rvTrue)
        (testVibeCodec wVibePayload) wEnv wJWKS (some wBody) 1000 wDB).1.status = 204 :=
  ⟨by decide, by decide, by decide⟩

/-- C6 (amended): claims validation checks issuer, audience, expiry,
not-before and email in this order, each firing only after the earlier
checks pass and producing the error naming that claim; the expiry and
not-before checks fire only for present non-zero values (JS truthiness),
and every assertion whose `exp` is non-zero and lies in the past makes the
exchange fail 401 regardless of the signature primitive. -/
theorem claims_validation_order (C : FlexiCodec) (token : List Char) (jwks : JWKS)
    (expIss expAud : List Char) (now : Nat) (hB pB sB : List Char) (hb pb : List Nat)
    (header : FlexiHeader) (payload : FlexiJWTPayload)
    (hsplit : splitOnDot token = [hB, pB, sB])
    (hd1 : base64UrlDecode hB = some hb) (hd2 : C.headerDec hb = some header)
    (hd3 : base64UrlDecode pB = some pb) (hd4 : C.payloadDec pb = some payload)
    (halg : header.alg = ("RS256").toList) :
    ClaimChecksOrdered C token jwks expIss expAud now payload := by
  have base := verifyFlexi_parsed C token jwks expIss expAud now hsplit hd1 hd2 hd3 hd4
  have halg' : ¬(header.alg ≠ ("RS256").toList) := by simp [halg]
  refine ⟨?_, ?_, ?_, ?_, ?_, ?_⟩
  · intro h
    rw [base, if_neg halg', if_pos h]
  · intro hIss h
    rw [base, if_neg halg', if_neg (by simp [hIss]), if_pos h]
  · intro hIss hAud x hx hxne hxlt
    rw [base, if_neg halg', if_neg (by simp [hIss]), if_neg (by simp [hAud]),
      if_pos ⟨by simp [hx, truthyNum, hxne], by simp [hx, hxlt]⟩]
  · intro hIss hAud hexp x hx hxne hxgt
    rw [base, if_neg halg', if_neg (by simp [hIss]), if_neg (by simp [hAud]),
      if_neg hexp, if_pos ⟨by simp [hx, truthyNum, hxne], by simp [hx, hxgt]⟩]
  · intro hIss hAud hexp hnbf hem
    rw [base, if_neg halg', if_neg (by simp [hIss]), if_neg (by simp [hAud]),
      if_neg hexp, if_neg hnbf, if_pos hem]
  · intro V env b db ht1 ht2 hbj hEnvIss hEnvAud hIss hAud x hx hxne hxlt
    have hv : verifyFlexiJWT_RS256 C token jwks expIss expAud now = .error .tokenExpired := by
      rw [base, if_neg halg', if_neg (by simp [hIss]), if_neg (by simp [hAud]),
        if_pos ⟨by simp [hx, truthyNum, hxne], by simp [hx, hxlt]⟩]
    have ht1' : truthyStr (some token) = true := by
      rw [← hbj]
      exact ht1
    simp [handleVibeAccess, ht1', ht2, hbj, hEnvIss, hEnvAud, hv]

/-- Witness for C6 at the concrete fixtures (token `wToken`, payload
`wFlexiPayload`, header `wHdr`). -/
theorem claims_validation_order_witness :
    (splitOnDot wToken = [("AA").toList, ("AA").toList, ("AA").toList] ∧
     base64UrlDecode (("AA").toList) = some [0] ∧
     (testFlexiCodec wHdr wFlexiPayload rvTrue).headerDec [0] = some wHdr ∧
     (testFlexiCodec wHdr wFlexiPayload rvTrue).payloadDec [0] = some wFlexiPayload ∧
     wHdr.alg = ("RS256").toList) ∧
    ClaimChecksOrdered (testFlexiCodec wHdr wFlexiPayload rvTrue) wToken wJWKS
      (("flexi").toList) (("handoff").toList) 100 wFlexiPayload :=
  ⟨⟨by decide, by decide, by decide, by decide, by decide⟩,
   claims_validation_order (testFlexiCodec wHdr wFlexiPayload rvTrue) wToken wJWKS
     (("flexi").toList) (("handoff").toList) 100 (("AA").toList) (("AA").toList)
     (("AA").toList) [0] [0] wHdr wFlexiPayload (by decide) (by decide) (by decide)
     (by decide) (by decide) (by decide)⟩

/-- C1: replay protection is permanent and precedes authorization.  The
first `markJtiSeen` call for a nonce returns `true` and records it; every
call on a store already containing the nonce returns `false`.
Consequently a second exchange presenting an assertion with an
already-recorded `jti` fails 409 REPLAYED_JTI, and an exchange that fails
the user-directory checks (USER_NOT_ALLOWED or USER_SUSPENDED) still
records the `jti` first — so resubmitting that assertion yields 409. -/
theorem replay_guard_once :
    (∀ (db : DB) (j : List Char),
      ((markJtiSeen db j).1 = true ↔ j ∉ db.seen) ∧ j ∈ (markJtiSeen db j).2.seen) ∧
    (∀ (C : FlexiCodec) (V : VibeCodec) (env : Env) (jwks : JWKS) (b : RequestBody)
        (now : Nat) (db : DB) (payload : FlexiJWTPayload) (j : List Char),
      truthyStr b.jwt = true → truthyStr b.email = true →
      verifyFlexiJWT_RS256 C (b.jwt.getD []) jwks env.FLEXI_ISS env.FLEXI_AUD now =
        .ok payload →
      payload.jti = some j → j ≠ [] →
      toLower payload.email = toLower (b.email.getD []) →
      j ∈ db.seen →
      handleVibeAccess C V env jwks (some b) now db =
        (errorResponse (("REPLAYED_JTI").toList) 409
          (some (("This JWT has already been used").toList)), db)) ∧
    (∀ (C : FlexiCodec) (V : VibeCodec) (env : Env) (jwks : JWKS) (b : RequestBody)
        (now : Nat) (db : DB) (payload : FlexiJWTPayload) (j : List Char),
      truthyStr b.jwt = true → truthyStr b.email = true →
      verifyFlexiJWT_RS256 C (b.jwt.getD []) jwks env.FLEXI_ISS env.FLEXI_AUD now =
        .ok payload →
      payload.jti = some j → j ≠ [] →
      toLower payload.email = toLower (b.email.getD []) →
      j ∉ db.seen →
      getUserByEmail db (b.email.getD []) = none →
      handleVibeAccess C V env jwks (some b) now db =
        (errorResponse (("USER_NOT_ALLOWED").toList) 403
          (some (("User not found in allowed users list").toList)),
         { db with seen := j :: db.seen })) ∧
    (∀ (C : FlexiCodec) (V : VibeCodec) (env : Env) (jwks : JWKS) (b : RequestBody)
        (now : Nat) (db : DB) (payload : FlexiJWTPayload) (j : List Char) (u : UserRow),
      truthyStr b.jwt = true → truthyStr b.email = true →
      verifyFlexiJWT_RS256 C (b.jwt.getD []) jwks env.FLEXI_ISS env.FLEXI_AUD now =
        .ok payload →
      payload.jti = some j → j ≠ [] →
      toLower payload.email = toLower (b.email.getD []) →
      j ∉ db.seen →
      getUserByEmail db (b.email.getD []) = some u →
      u.status = ("suspended").toList →
      handleVibeAccess C V env jwks (some b) now db =
        (errorResponse (("USER_SUSPENDED").toList) 403
          (some (("User account is suspended").toList)),
         { db with seen := j :: db.seen })) ∧
    (∀ (C : FlexiCodec) (V : VibeCodec) (env : Env) (jwks : JWKS) (b : RequestBody)
        (now : Nat) (db : DB) (payload : FlexiJWTPayload) (j : List Char),
      truthyStr b.jwt = true → truthyStr b.email = true →
      verifyFlexiJWT_RS256 C (b.jwt.getD []) jwks env.FLEXI_ISS env.FLEXI_AUD now =
        .ok payload →
      payload.jti = some j → j ≠ [] →
      toLower payload.email = toLower (b.email.getD []) →
      j ∉ db.seen →
      getUserByEmail db (b.email.getD []) = none →
      (handleVibeAccess C V env jwks (some b) now
          (handleVibeAccess C V env jwks (some b) now db).2).1 =
        errorResponse (("REPLAYED_JTI").toList) 409
          (some (("This JWT has already been used").toList))) := by
  have hfirst : ∀ (db : DB) (j : List Char),
      ((markJtiSeen db j).1 = true ↔ j ∉ db.seen) ∧ j ∈ (markJtiSeen db j).2.seen := by
    intro db j
    unfold markJtiSeen
    by_cases hc : j ∈ db.seen
    · simp [hc]
    · simp [hc]
  have hreplay : ∀ (C : FlexiCodec) (V : VibeCodec) (env : Env) (jwks : JWKS)
      (b : RequestBody) (now : Nat) (db : DB) (payload : FlexiJWTPayload) (j : List Char),
      truthyStr b.jwt = true → truthyStr b.email = true →
      verifyFlexiJWT_RS256 C (b.jwt.getD []) jwks env.FLEXI_ISS env.FLEXI_AUD now =
        .ok payload →
      payload.jti = some j → j ≠ [] →
      toLower payload.email = toLower (b.email.getD []) →
      j ∈ db.seen →
      handleVibeAccess C V env jwks (some b) now db =
        (errorResponse (("REPLAYED_JTI").toList) 409
          (some (("This JWT has already been used").toList)), db) := by
    intro C V env jwks b now db payload j ht1 ht2 hv hj hjne hem hseen
    have hjt : truthyStr (some j) = true := by simp [truthyStr, hjne]
    simp [handleVibeAccess, ht1, ht2, hv, vibePostVerify, hem, hj, hjt,
      markJtiSeen, hseen]
  refine ⟨hfirst, hreplay, ?_, ?_, ?_⟩
  · intro C V env jwks b now db payload j ht1 ht2 hv hj hjne hem hnew hu
    have hjt : truthyStr (some j) = true := by simp [truthyStr, hjne]
    have hu2 : getUserByEmail { db with seen := j :: db.seen } (b.email.getD []) = none := hu
    simp [handleVibeAccess, ht1, ht2, hv, vibePostVerify, hem, hj, hjt,
      markJtiSeen, hnew, vibeUserStep, hu2]
  · intro C V env jwks b now db payload j u ht1 ht2 hv hj hjne hem hnew hu hst
    have hjt : truthyStr (some j) = true := by simp [truthyStr, hjne]
    have hu2 : getUserByEmail { db with seen := j :: db.seen } (b.email.getD []) = some u := hu
    simp [handleVibeAccess, ht1, ht2, hv, vibePostVerify, hem, hj, hjt,
      markJtiSeen, hnew, vibeUserStep, hu2, hst]
  · intro C V env jwks b now db payload j ht1 ht2 hv hj hjne hem hnew hu
    have step1 : handleVibeAccess C V env jwks (some b) now db =
        (errorResponse (("USER_NOT_ALLOWED").toList) 403
          (some (("User not found in allowed users list").toList)),
         { db with seen := j :: db.seen }) := by
      have hjt : truthyStr (some j) = true := by simp [truthyStr, hjne]
      have hu2 : getUserByEmail { db with seen := j :: db.seen } (b.email.getD []) = none := hu
      simp [handleVibeAccess, ht1, ht2, hv, vibePostVerify, hem, hj, hjt,
        markJtiSeen, hnew, vibeUserStep, hu2]
    rw [step1]
    rw [hreplay C V env jwks b now { db with seen := j :: db.seen } payload j ht1 ht2 hv
      hj hjne hem (by simp)]

/-- Witness for C1: first exchange of the `n1` assertion against a store
with no matching user burns the nonce with 403; the identical resubmission
yields 409 REPLAYED_JTI. -/
theorem replay_guard_once_witness :
    (truthyStr wBody.jwt = true ∧ truthyStr wBody.email = true ∧
     verifyFlexiJWT_RS256 (testFlexiCodec wHdr wFlexiPayload rvTrue) (wBody.jwt.getD [])
         wJWKS wEnv.FLEXI_ISS wEnv.FLEXI_AUD 100 = .ok wFlexiPayload ∧
     wFlexiPayload.jti = some (("n1").toList) ∧ ("n1").toList ≠ ([] : List Char) ∧
     toLower wFlexiPayload.email = toLower (wBody.email.getD []) ∧
     ("n1").toList ∉ (DB.mk [] []).seen ∧
     getUserByEmail (DB.mk [] []) (wBody.email.getD []) = none) ∧
    (handleVibeAccess (testFlexiCodec wHdr wFlexiPayload rvTrue) (testVibeCodec wVibePayload)
        wEnv wJWKS (some wBody) 100
        (handleVibeAccess (testFlexiCodec wHdr wFlexiPayload rvTrue)
          (testVibeCodec wVibePayload) wEnv wJWKS (some wBody) 100 (DB.mk [] [])).2).1 =
      errorResponse (("REPLAYED_JTI").toList) 409
        (some (("This JWT has already been used").toList)) :=
  ⟨⟨by decide, by decide, by decide, by decide, by decide, by decide, by decide, by decide⟩,
   replay_guard_once.2.2.2.2 (testFlexiCodec wHdr wFlexiPayload rvTrue)
     (testVibeCodec wVibePayload) wEnv wJWKS wBody 100 (DB.mk [] []) wFlexiPayload
     (("n1").toList) (by decide) (by decide) (by decide) (by decide) (by decide)
     (by decide) (by decide) (by decide)⟩

/-- The user-directory step never writes to the store. -/
theorem vibeUserStep_state (V : VibeCodec) (env : Env) (email : List Char)
    (now : Nat) (db : DB) : (vibeUserStep V env email now db).2 = db := by
  unfold vibeUserStep
  split
  · rfl
  · split
    · rfl
    · rfl

/-- C8: any exchange request that fails before the replay check — invalid
JSON body, missing/empty `jwt` or `email` field, JWT verification failure,
or an email mismatch — leaves the `jwt_seen` store unchanged; conversely
the store changes only for a request that passed the email-mismatch check
and carried a truthy, not-yet-seen `jti`. -/
theorem early_failures_no_replay_record
    (C : FlexiCodec) (V : VibeCodec) (env : Env) (jwks : JWKS) (now : Nat) (db : DB) :
    ((handleVibeAccess C V env jwks none now db).2 = db) ∧
    (∀ b : RequestBody, truthyStr b.jwt = false ∨ truthyStr b.email = false →
      (handleVibeAccess C V env jwks (some b) now db).2 = db) ∧
    (∀ (b : RequestBody) (e : FlexiErr),
      verifyFlexiJWT_RS256 C (b.jwt.getD []) jwks env.FLEXI_ISS env.FLEXI_AUD now =
        .error e →
      (handleVibeAccess C V env jwks (some b) now db).2 = db) ∧
    (∀ (b : RequestBody) (payload : FlexiJWTPayload),
      verifyFlexiJWT_RS256 C (b.jwt.getD []) jwks env.FLEXI_ISS env.FLEXI_AUD now =
        .ok payload →
      toLower payload.email ≠ toLower (b.email.getD []) →
      (handleVibeAccess C V env jwks (some b) now db).2 = db) ∧
    (∀ b : RequestBody,
      (handleVibeAccess C V env jwks (some b) now db).2 ≠ db →
      ∃ payload, truthyStr b.jwt = true ∧ truthyStr b.email = true ∧
        verifyFlexiJWT_RS256 C (b.jwt.getD []) jwks env.FLEXI_ISS env.FLEXI_AUD now =
          .ok payload ∧
        toLower payload.email = toLower (b.email.getD []) ∧
        truthyStr payload.jti = true ∧ payload.jti.getD [] ∉ db.seen) := by
  refine ⟨by simp [handleVibeAccess], ?_, ?_, ?_, ?_⟩
  · intro b hb
    rcases hb with h | h <;> simp [handleVibeAccess, h]
  · intro b e hv
    cases ht1 : truthyStr b.jwt
    · simp [handleVibeAccess, ht1]
    · cases ht2 : truthyStr b.email
      · simp [handleVibeAccess, ht1, ht2]
      · simp [handleVibeAccess, ht1, ht2, hv]
  · intro b payload hv hne
    cases ht1 : truthyStr b.jwt
    · simp [handleVibeAccess, ht1]
    · cases ht2 : truthyStr b.email
      · simp [handleVibeAccess, ht1, ht2]
      · simp [handleVibeAccess, ht1, ht2, hv, vibePostVerify, hne]
  · intro b hch
    cases ht1 : truthyStr b.jwt
    · simp [handleVibeAccess, ht1] at hch
    · cases ht2 : truthyStr b.email
      · simp [handleVibeAccess, ht1, ht2] at hch
      · rcases hv : verifyFlexiJWT_RS256 C (b.jwt.getD []) jwks env.FLEXI_ISS
            env.FLEXI_AUD now with e | payload
        · simp [handleVibeAccess, ht1, ht2, hv] at hch
        · by_cases hem : toLower payload.email = toLower (b.email.getD [])
          · cases hjt : truthyStr payload.jti
            · simp [handleVibeAccess, ht1, ht2, hv, vibePostVerify, hem, hjt,
                vibeUserStep_state] at hch
            · by_cases hseen : payload.jti.getD [] ∈ db.seen
              · simp [handleVibeAccess, ht1, ht2, hv, vibePostVerify, hem, hjt,
                  markJtiSeen, hseen] at hch
              · exact ⟨payload, rfl, rfl, rfl, hem, hjt, hseen⟩
          · simp [handleVibeAccess, ht1, ht2, hv, vibePostVerify, hem] at hch

/-- Witness for C8: a failed verification (wrong issuer) leaves the store
unchanged. -/
theorem early_failures_no_replay_record_witness :
    verifyFlexiJWT_RS256 (testFlexiCodec wHdr wBadIssPayload rvTrue) (wBody.jwt.getD [])
        wJWKS wEnv.FLEXI_ISS wEnv.FLEXI_AUD 100 =
      .error (.invalidIssuer (("evil").toList)) ∧
    (handleVibeAccess (testFlexiCodec wHdr wBadIssPayload rvTrue)
        (testVibeCodec wVibePayload) wEnv wJWKS (some wBody) 100 wDB).2 = wDB :=
  ⟨by decide,
   (early_failures_no_replay_record (testFlexiCodec wHdr wBadIssPayload rvTrue)
       (testVibeCodec wVibePayload) wEnv wJWKS 100 wDB).2.2.1 wBody
     (.invalidIssuer (("evil").toList)) (by decide)⟩

/-- The user-directory step never answers with a code other than
USER_NOT_ALLOWED or USER_SUSPENDED. -/
theorem vibeUserStep_code_ne (V : VibeCodec) (env : Env) (email : List Char)
    (now : Nat) (db : DB) (c : List Char)
    (h1 : c ≠ ("USER_NOT_ALLOWED").toList) (h2 : c ≠ ("USER_SUSPENDED").toList) :
    (vibeUserStep V env email now db).1.code ≠ some c := by
  unfold vibeUserStep
  split
  · intro hc
    simp [errorResponse] at hc
    exact h1 hc.symm
  · split
    · intro hc
      simp [errorResponse] at hc
      exact h2 hc.symm
    · simp

/-- C9: the email-mismatch check compares the lowercased request-body email
with the lowercased JWT email claim (and only fires when they differ); the
user-directory lookup is keyed on the request-body email exactly as
supplied; and the issued session cookie is signed over the email stored in
the user record. -/
theorem email_matching_and_lookup
    (C : FlexiCodec) (V : VibeCodec) (env : Env) (jwks : JWKS) (b : RequestBody)
    (payload : FlexiJWTPayload) (now : Nat) (db : DB)
    (ht1 : truthyStr b.jwt = true) (ht2 : truthyStr b.email = true)
    (hv : verifyFlexiJWT_RS256 C (b.jwt.getD []) jwks env.FLEXI_ISS env.FLEXI_AUD now =
      .ok payload) :
    (toLower payload.email ≠ toLower (b.email.getD []) →
      handleVibeAccess C V env jwks (some b) now db =
        (errorResponse (("EMAIL_MISMATCH").toList) 401
          (some (("Email in body does not match JWT email claim").toList)), db)) ∧
    (toLower payload.email = toLower (b.email.getD []) →
      (handleVibeAccess C V env jwks (some b) now db).1.code ≠
        some (("EMAIL_MISMATCH").toList)) ∧
    (toLower payload.email = toLower (b.email.getD []) →
      (truthyStr payload.jti = true → payload.jti.getD [] ∉ db.seen) →
      getUserByEmail db (b.email.getD []) = none →
      (handleVibeAccess C V env jwks (some b) now db).1 =
        errorResponse (("USER_NOT_ALLOWED").toList) 403
          (some (("User not found in allowed users list").toList))) ∧
    (∀ u : UserRow, toLower payload.email = toLower (b.email.getD []) →
      (truthyStr payload.jti = true → payload.jti.getD [] ∉ db.seen) →
      getUserByEmail db (b.email.getD []) = some u →
      u.status ≠ ("suspended").toList →
      (handleVibeAccess C V env jwks (some b) now db).1 =
        ⟨204, none, none, some (signVibeAccessHS256 V
          ⟨env.VIBE_ISS, env.VIBE_AUD, u.user_id, u.email, u.roles⟩
          env.VIBE_ACCESS_SECRET 600 now)⟩) := by
  refine ⟨?_, ?_, ?_, ?_⟩
  · intro hne
    simp [handleVibeAccess, ht1, ht2, hv, vibePostVerify, hne]
  · intro hem
    cases hjt : truthyStr payload.jti
    · have heq : handleVibeAccess C V env jwks (some b) now db =
          vibeUserStep V env (b.email.getD []) now db := by
        simp [handleVibeAccess, ht1, ht2, hv, vibePostVerify, hem, hjt]
      rw [heq]
      exact vibeUserStep_code_ne V env (b.email.getD []) now db _ (by decide) (by decide)
    · by_cases hseen : payload.jti.getD [] ∈ db.seen
      · have heq : handleVibeAccess C V env jwks (some b) now db =
            (errorResponse (("REPLAYED_JTI").toList) 409
              (some (("This JWT has already been used").toList)), db) := by
          simp [handleVibeAccess, ht1, ht2, hv, vibePostVerify, hem, hjt,
            markJtiSeen, hseen]
        rw [heq]
        simp [errorResponse]
      · have heq : handleVibeAccess C V env jwks (some b) now db =
            vibeUserStep V env (b.email.getD []) now
              { db with seen := payload.jti.getD [] :: db.seen } := by
          simp [handleVibeAccess, ht1, ht2, hv, vibePostVerify, hem, hjt,
            markJtiSeen, hseen]
        rw [heq]
        exact vibeUserStep_code_ne V env (b.email.getD []) now _ _ (by decide) (by decide)
  · intro hem hfresh hu
    cases hjt : truthyStr payload.jti
    · simp [handleVibeAccess, ht1, ht2, hv, vibePostVerify, hem, hjt, vibeUserStep, hu]
    · have hseen : payload.jti.getD [] ∉ db.seen := hfresh hjt
      have hu2 : getUserByEmail { db with seen := payload.jti.getD [] :: db.seen }
          (b.email.getD []) = none := hu
      simp [handleVibeAccess, ht1, ht2, hv, vibePostVerify, hem, hjt,
        markJtiSeen, hseen, vibeUserStep, hu2]
  · intro u hem hfresh hu hst
    cases hjt : truthyStr payload.jti
    · simp [handleVibeAccess, ht1, ht2, hv, vibePostVerify, hem, hjt, vibeUserStep, hu]
      rw [if_neg (by simpa using hst)]
    · have hseen : payload.jti.getD [] ∉ db.seen := hfresh hjt
      have hu2 : getUserByEmail { db with seen := payload.jti.getD [] :: db.seen }
          (b.email.getD []) = some u := hu
      simp [handleVibeAccess, ht1, ht2, hv, vibePostVerify, hem, hjt,
        markJtiSeen, hseen, vibeUserStep, hu2]
      rw [if_neg (by simpa using hst)]

/-- Witness for C9: the JWT claims `A@B.COM`, the body supplies `a@b.com`;
the exchange succeeds and the cookie is signed over the stored record's
email. -/
theorem email_matching_and_lookup_witness :
    (truthyStr wBody.jwt = true ∧ truthyStr wBody.email = true ∧
     verifyFlexiJWT_RS256 (testFlexiCodec wHdr wUpperPayload rvTrue) (wBody.jwt.getD [])
         wJWKS wEnv.FLEXI_ISS wEnv.FLEXI_AUD 100 = .ok wUpperPayload ∧
     toLower wUpperPayload.email = toLower (wBody.email.getD []) ∧
     (truthyStr wUpperPayload.jti = true → wUpperPayload.jti.getD [] ∉ wDB.seen) ∧
     getUserByEmail wDB (wBody.email.getD []) = some wUser ∧
     wUser.status ≠ ("suspended").toList) ∧
    (handleVibeAccess (testFlexiCodec wHdr wUpperPayload rvTrue) (testVibeCodec wVibePayload)
        wEnv wJWKS (some wBody) 100 wDB).1 =
      ⟨204, none, none, some (signVibeAccessHS256 (testVibeCodec wVibePayload)
        ⟨wEnv.VIBE_ISS, wEnv.VIBE_AUD, wUser.user_id, wUser.email, wUser.roles⟩
        wEnv.VIBE_ACCESS_SECRET 600 100)⟩ :=
  ⟨⟨by decide, by decide, by decide, by decide, by decide, by decide, by decide⟩,
   (email_matching_and_lookup (testFlexiCodec wHdr wUpperPayload rvTrue)
       (testVibeCodec wVibePayload) wEnv wJWKS wBody wUpperPayload 100 wDB
       (by decide) (by decide) (by decide)).2.2.2 wUser (by decide) (by decide)
     (by decide) (by decide)⟩

/-- C10: an assertion with an empty-string `jti` is treated exactly like an
assertion with no `jti`: the replay check is skipped (the store is never
written, the response is never 409 REPLAYED_JTI), so the exchange can
succeed any number of times with that assertion. -/
theorem empty_jti_skips_replay
    (V : VibeCodec) (env : Env) (payload : FlexiJWTPayload) (email : List Char)
    (now : Nat) (db : DB) (hj : payload.jti = some []) :
    (vibePostVerify V env payload email now db =
      vibePostVerify V env { payload with jti := none } email now db) ∧
    ((vibePostVerify V env payload email now db).2 = db) ∧
    ((vibePostVerify V env payload email now db).1.code ≠
      some (("REPLAYED_JTI").toList)) ∧
    (∀ (C : FlexiCodec) (jwks : JWKS) (b : RequestBody),
      truthyStr b.jwt = true → truthyStr b.email = true →
      verifyFlexiJWT_RS256 C (b.jwt.getD []) jwks env.FLEXI_ISS env.FLEXI_AUD now =
        .ok payload →
      handleVibeAccess C V env jwks (some b) now db =
        vibePostVerify V env payload (b.email.getD []) now db) := by
  have hjt : truthyStr payload.jti = false := by simp [hj, truthyStr]
  refine ⟨?_, ?_, ?_, ?_⟩
  · simp [vibePostVerify, hj, truthyStr]
  · by_cases hem : toLower payload.email ≠ toLower email
    · simp [vibePostVerify, hem]
    · simp [vibePostVerify, hem, hjt, vibeUserStep_state]
  · by_cases hem : toLower payload.email ≠ toLower email
    · simp [vibePostVerify, hem, errorResponse]
    · have heq : vibePostVerify V env payload email now db =
          vibeUserStep V env email now db := by
        simp [vibePostVerify, hem, hjt]
      rw [heq]
      exact vibeUserStep_code_ne V env email now db _ (by decide) (by decide)
  · intro C jwks b ht1 ht2 hv
    simp [handleVibeAccess, ht1, ht2, hv]

/-- Witness for C10 at the concrete empty-`jti` assertion. -/
theorem empty_jti_skips_replay_witness :
    (wEmptyJtiPayload.jti = some []) ∧
    ((vibePostVerify (testVibeCodec wVibePayload) wEnv wEmptyJtiPayload
        (("a@b.com").toList) 100 wDB =
      vibePostVerify (testVibeCodec wVibePayload) wEnv
        { wEmptyJtiPayload with jti := none } (("a@b.com").toList) 100 wDB) ∧
    ((vibePostVerify (testVibeCodec wVibePayload) wEnv wEmptyJtiPayload
        (("a@b.com").toList) 100 wDB).2 = wDB) ∧
    ((vibePostVerify (testVibeCodec wVibePayload) wEnv wEmptyJtiPayload
        (("a@b.com").toList) 100 wDB).1.code ≠ some (("REPLAYED_JTI").toList)) ∧
    (∀ (C : FlexiCodec) (jwks : JWKS) (b : RequestBody),
      truthyStr b.jwt = true → truthyStr b.email = true →
      verifyFlexiJWT_RS256 C (b.jwt.getD []) jwks wEnv.FLEXI_ISS wEnv.FLEXI_AUD 100 =
        .ok wEmptyJtiPayload →
      handleVibeAccess C (testVibeCodec wVibePayload) wEnv jwks (some b) 100 wDB =
        vibePostVerify (testVibeCodec wVibePayload) wEnv wEmptyJtiPayload
          (b.email.getD []) 100 wDB)) :=
  ⟨by decide,
   empty_jti_skips_replay (testVibeCodec wVibePayload) wEnv wEmptyJtiPayload
     (("a@b.com").toList) 100 wDB (by decide)⟩

/-- Shape of every `POST /auth/vibe-access` response: either 204 with no
error code, or a non-204 failure carrying exactly one code from
`vibeAccessFailureCodes`. -/
theorem fetch_resp_shape (C : FlexiCodec) (V : VibeCodec) (env : Env) (jwks : JWKS)
    (origin contentType : Option (List Char)) (body : Option RequestBody)
    (now : Nat) (db : DB) :
    ((fetchVibeAccess C V env jwks origin contentType body now db).1.status = 204 ∧
     (fetchVibeAccess C V env jwks origin contentType body now db).1.code = none) ∨
    ((fetchVibeAccess C V env jwks origin contentType body now db).1.status ≠ 204 ∧
     ∃ c, (fetchVibeAccess C V env jwks origin contentType body now db).1.code = some c ∧
       c ∈ vibeAccessFailureCodes) := by
  unfold fetchVibeAccess fetchVibeAccessCT handleVibeAccess vibePostVerify vibeUserStep
  dsimp only
  repeat' split
  all_goals
    first
      | exact Or.inl ⟨rfl, rfl⟩
      | exact Or.inr ⟨by simp [errorResponse], _, rfl, by decide⟩

/-- C3 (counterexample): a request whose declared content type is not
`application/json` fails with machine-readable code INVALID_CONTENT_TYPE,
which is not among the seven codes of the spec's interface table. -/
theorem failure_code_counterexample :
    (fetchVibeAccess (testFlexiCodec wHdr wFlexiPayload rvTrue) (testVibeCodec wVibePayload)
        wEnv wJWKS none (some (("text/plain").toList)) (some wBody) 100 wDB).1.status = 400 ∧
    (fetchVibeAccess (testFlexiCodec wHdr wFlexiPayload rvTrue) (testVibeCodec wVibePayload)
        wEnv wJWKS none (some (("text/plain").toList)) (some wBody) 100 wDB).1.code =
      some (("INVALID_CONTENT_TYPE").toList) ∧
    (("INVALID_CONTENT_TYPE").toList) ∉
      [("INVALID_BODY").toList, ("JWT_INVALID").toList, ("EMAIL_MISMATCH").toList,
       ("USER_NOT_ALLOWED").toList, ("USER_SUSPENDED").toList, ("REPLAYED_JTI").toList,
       ("INTERNAL_ERROR").toList] :=
  ⟨by decide, by decide, by decide⟩

/-- C3 (amended): every failure response of `POST /auth/vibe-access`
carries exactly one machine-readable code, drawn from the spec's table
extended with 400 INVALID_CONTENT_TYPE (for a content type that is not
`application/json`) and 403 FORBIDDEN (for a present, non-allow-listed
Origin, rejected before the endpoint logic); a 204 success carries none. -/
theorem failure_codes_complete (C : FlexiCodec) (V : VibeCodec) (env : Env)
    (jwks : JWKS) (origin contentType : Option (List Char)) (body : Option RequestBody)
    (now : Nat) (db : DB) :
    ((fetchVibeAccess C V env jwks origin contentType body now db).1.status = 204 →
      (fetchVibeAccess C V env jwks origin contentType body now db).1.code = none) ∧
    ((fetchVibeAccess C V env jwks origin contentType body now db).1.status ≠ 204 →
      ∃ c, (fetchVibeAccess C V env jwks origin contentType body now db).1.code = some c ∧
        c ∈ vibeAccessFailureCodes) := by
  rcases fetch_resp_shape C V env jwks origin contentType body now db with
    ⟨h1, h2⟩ | ⟨h1, h2⟩
  · exact ⟨fun _ => h2, fun hne => absurd h1 hne⟩
  · exact ⟨fun heq => absurd heq h1, fun _ => h2⟩

/-- Witness for C3: the content-type failure carries a listed code. -/
theorem failure_codes_complete_witness :
    ((fetchVibeAccess (testFlexiCodec wHdr wFlexiPayload rvTrue) (testVibeCodec wVibePayload)
        wEnv wJWKS none (some (("text/plain").toList)) (some wBody) 100 wDB).1.status ≠ 204) ∧
    (∃ c, (fetchVibeAccess (testFlexiCodec wHdr wFlexiPayload rvTrue)
        (testVibeCodec wVibePayload) wEnv wJWKS none (some (("text/plain").toList))
        (some wBody) 100 wDB).1.code = some c ∧ c ∈ vibeAccessFailureCodes) :=
  ⟨by decide,
   (failure_codes_complete (testFlexiCodec wHdr wFlexiPayload rvTrue)
       (testVibeCodec wVibePayload) wEnv wJWKS none (some (("text/plain").toList))
       (some wBody) 100 wDB).2 (by decide)⟩

/-- C7 (counterexample): the two 401 NO_SESSION responses of the protected
gateway are distinguishable after all — the diagnostic `message` field
names the failure (`No session cookie found` versus the verifier's error),
so "no further distinction between these cases" fails; status and code are
identical. -/
theorem no_session_distinction_counterexample :
    ((handleProtected (testVibeCodec wVibePayload) wEnv [] (("/app").toList)
        (("GET").toList) 100 (fun _ _ => ⟨0, none, none, none⟩)
        (fun _ _ _ => ⟨0, none, none, none⟩)).status = 401) ∧
    ((handleProtected (testVibeCodec wVibePayload) wEnv [] (("/app").toList)
        (("GET").toList) 100 (fun _ _ => ⟨0, none, none, none⟩)
        (fun _ _ _ => ⟨0, none, none, none⟩)).code = some (("NO_SESSION").toList)) ∧
    ((handleProtected (testVibeCodec wVibePayload) wEnv
        [(wEnv.VIBE_COOKIE_NAME, wToken)] (("/app").toList)
        (("GET").toList) 100 (fun _ _ => ⟨0, none, none, none⟩)
        (fun _ _ _ => ⟨0, none, none, none⟩)).status = 401) ∧
    ((handleProtected (testVibeCodec wVibePayload) wEnv
        [(wEnv.VIBE_COOKIE_NAME, wToken)] (("/app").toList)
        (("GET").toList) 100 (fun _ _ => ⟨0, none, none, none⟩)
        (fun _ _ _ => ⟨0, none, none, none⟩)).code = some (("NO_SESSION").toList)) ∧
    ((handleProtected (testVibeCodec wVibePayload) wEnv [] (("/app").toList)
        (("GET").toList) 100 (fun _ _ => ⟨0, none, none, none⟩)
        (fun _ _ _ => ⟨0, none, none, none⟩)).message ≠
     (handleProtected (testVibeCodec wVibePayload) wEnv
        [(wEnv.VIBE_COOKIE_NAME, wToken)] (("/app").toList)
        (("GET").toList) 100 (fun _ _ => ⟨0, none, none, none⟩)
        (fun _ _ _ => ⟨0, none, none, none⟩)).message) :=
  ⟨by decide, by decide, by decide, by decide, by decide⟩

/-- C7 (amended): for every request under the protected path, a falsy
session cookie — absent, or present with an empty value, which the
source's `if (!token)` truthiness guard treats identically — yields the
401 NO_SESSION response with message `No session cookie found`, and a
present non-empty cookie failing verification yields 401 NO_SESSION with
the verifier's message; the two outcomes are identical in status and code
(only the diagnostic message distinguishes them); the result is the same
for every upstream handoff/proxy function — no upstream call is made —
and `handleProtected` touches no durable state. -/
theorem protected_no_session (V : VibeCodec) (env : Env)
    (cookies : List (List Char × List Char)) (pathname method : List Char)
    (now : Nat) (handoff : VibeAccessPayload → List Char → Resp)
    (proxy : VibeAccessPayload → List Char → List Char → Resp) :
    (truthyStr (lookupCookie cookies env.VIBE_COOKIE_NAME) = false →
      handleProtected V env cookies pathname method now handoff proxy =
        errorResponse (("NO_SESSION").toList) 401
          (some (("No session cookie found").toList))) ∧
    (∀ (token : List Char) (e : VibeErr),
      lookupCookie cookies env.VIBE_COOKIE_NAME = some token →
      token ≠ [] →
      verifyVibeAccessHS256 V token env.VIBE_ACCESS_SECRET now = .error e →
      handleProtected V env cookies pathname method now handoff proxy =
        errorResponse (("NO_SESSION").toList) 401 (some (vibeErrMsg e))) := by
  constructor
  · intro h
    simp [handleProtected, h]
  · intro token e h hne hv
    have ht : truthyStr (some token) = true := by simp [truthyStr, hne]
    simp [handleProtected, h, ht, hv]

/-- Witness for C7: the missing-cookie case and the present-but-empty
cookie case both produce the `No session cookie found` 401 NO_SESSION
response, and the bad-signature-cookie case produces the 401 NO_SESSION
response carrying the verifier's message. -/
theorem protected_no_session_witness :
    (handleProtected (testVibeCodec wVibePayload) wEnv [] (("/app").toList)
        (("GET").toList) 100 (fun _ _ => ⟨0, none, none, none⟩)
        (fun _ _ _ => ⟨0, none, none, none⟩) =
      errorResponse (("NO_SESSION").toList) 401
        (some (("No session cookie found").toList))) ∧
    (handleProtected (testVibeCodec wVibePayload) wEnv
        [(wEnv.VIBE_COOKIE_NAME, [])] (("/app").toList)
        (("GET").toList) 100 (fun _ _ => ⟨0, none, none, none⟩)
        (fun _ _ _ => ⟨0, none, none, none⟩) =
      errorResponse (("NO_SESSION").toList) 401
        (some (("No session cookie found").toList))) ∧
    (handleProtected (testVibeCodec wVibePayload) wEnv
        [(wEnv.VIBE_COOKIE_NAME, wToken)] (("/app").toList)
        (("GET").toList) 100 (fun _ _ => ⟨0, none, none, none⟩)
        (fun _ _ _ => ⟨0, none, none, none⟩) =
      errorResponse (("NO_SESSION").toList) 401
        (some (vibeErrMsg .invalidSignature))) :=
  ⟨(protected_no_session (testVibeCodec wVibePayload) wEnv [] (("/app").toList)
      (("GET").toList) 100 (fun _ _ => ⟨0, none, none, none⟩)
      (fun _ _ _ => ⟨0, none, none, none⟩)).1 (by decide),
   (protected_no_session (testVibeCodec wVibePayload) wEnv
      [(wEnv.VIBE_COOKIE_NAME, [])] (("/app").toList)
      (("GET").toList) 100 (fun _ _ => ⟨0, none, none, none⟩)
      (fun _ _ _ => ⟨0, none, none, none⟩)).1 (by decide),
   (protected_no_session (testVibeCodec wVibePayload) wEnv
      [(wEnv.VIBE_COOKIE_NAME, wToken)] (("/app").toList)
      (("GET").toList) 100 (fun _ _ => ⟨0, none, none, none⟩)
      (fun _ _ _ => ⟨0, none, none, none⟩)).2 wToken .invalidSignature
     (by decide) (by decide) (by decide)⟩

end SSOClaims
